import Mathlib

/-!
Shallow embedding of the offline-first task-sync service worker
(`sw.js`, the `ConflictResolver` of `technical-research.md`, and the
`storeOperationForSync` producer of `service-worker-patterns.md`).

JavaScript promises that resolve are modelled as `Except.ok`, rejections
and thrown exceptions as `Except.error`.  IndexedDB object stores keep
their records in ascending key order, so the `syncQueue` store is a list
of entries sorted by the `id` key.  `fetch` outcomes are an explicit
argument (`Except String Response`): `.ok r` is a resolved response
(possibly non-2xx), `.error` a network failure.
-/

namespace Sky

/-! ### Conflict resolver (technical-research.md) -/

/-- The fields of a task record that the conflict policy inspects, plus a
`title` field standing for the rest of the record carried along by the
object spread. -/
structure Task where
  status : String
  priority : String
  modifiedAt : Int
  title : String
deriving DecidableEq, Repr

/-- `ConflictResolver.resolveStatusConflict`: completion takes precedence,
otherwise the remote status is kept. -/
def resolveStatusConflict (localStatus remoteStatus : String) : String :=
  if localStatus == "completed" || remoteStatus == "completed" then
    "completed"
  else
    remoteStatus

/-- Modelled from the spec: `resolvePriorityConflict` is invoked by
`resolveTaskConflict` but its body appears nowhere in the repository.
Per the spec's field policy, in the merge branch (where local is not the
more recent side) non-status fields default to the remote value. -/
def resolvePriorityConflict (localPriority remotePriority : String) : String :=
  remotePriority

/-- `ConflictResolver.resolveTaskConflict`: last-write-wins on
`modifiedAt` first; only when the local side is not strictly newer are
the status and priority fields merged over the remote record. -/
def resolveTaskConflict (localTask remoteTask : Task) : Task :=
  if localTask.modifiedAt > remoteTask.modifiedAt then
    localTask
  else
    { remoteTask with
      status := resolveStatusConflict localTask.status remoteTask.status
      priority := resolvePriorityConflict localTask.priority remoteTask.priority }

/-! ### Notification click handling (sw.js lines 48-85) -/

/-- Payload attached to a push notification. -/
structure NotifData where
  taskId : String
deriving DecidableEq, Repr

/-- A shown notification; `ndata` is its `data` member, set by the push
handler from the push payload. -/
structure SWNotification where
  ndata : Option NotifData
deriving DecidableEq, Repr

/-- The push handler builds the notification options with
`data: data.data`, so the shown notification carries the payload. -/
def pushShowNotification (payload : NotifData) : SWNotification :=
  { ndata := some payload }

/-- A `notificationclick` event.  A genuine browser `NotificationEvent`
exposes only `notification` and `action`; it has no own `data` property,
which we record as the `data` field being `none` on real events. -/
structure NotificationClickEvent where
  action : String
  notification : SWNotification
  data : Option NotifData
deriving DecidableEq, Repr

/-- Effect performed by the click handler. -/
inductive ClickOutcome where
  | taskComplete (taskId : String)
  | openWindow (url : String)
deriving DecidableEq, Repr

/-- The `notificationclick` listener of sw.js.  It destructures `action`
and `data` from the event itself, then reads `data.taskId`; reading a
property of `undefined` throws a `TypeError`. -/
def notificationClickHandler (event : NotificationClickEvent) : Except String ClickOutcome :=
  let data := event.data
  match event.action with
  | "complete" =>
    match data with
    | some d => .ok (.taskComplete d.taskId)
    | none => .error "TypeError: undefined has no property taskId"
  | "view" =>
    match data with
    | some d => .ok (.openWindow ("/?task=" ++ d.taskId))
    | none => .error "TypeError: undefined has no property taskId"
  | _ => .ok (.openWindow "/")

/-! ### Caching strategies (sw.js lines 17-36 and 104-167) -/

/-- An HTTP response: status code and body. -/
structure Response where
  status : Nat
  body : String
deriving DecidableEq, Repr

/-- `response.ok`: the status is in the 2xx range. -/
def Response.isOk (r : Response) : Bool :=
  200 ≤ r.status && r.status < 300

/-- The service-worker cache: request URL to stored response. -/
abbrev Cache := List (String × Response)

/-- `cache.match(request)`. -/
def cacheMatch (cache : Cache) (request : String) : Option Response :=
  (cache.find? (fun e => e.1 == request)).map (fun e => e.2)

/-- `cache.put(request, response)`: overwrites any entry for the request. -/
def cachePut (cache : Cache) (request : String) (response : Response) : Cache :=
  (request, response) :: cache.filter (fun e => e.1 != request)

/-- `networkFirstStrategy`: try the network; a resolved ok response is
written to the cache and returned, a resolved non-ok response is
returned as is; on a network failure fall back to the cache, and to a
synthetic 503 when nothing is cached.  Returns the response handed to
the page together with the cache afterwards. -/
def networkFirstStrategy (net : Except String Response) (cache : Cache)
    (request : String) : Response × Cache :=
  match net with
  | .ok networkResponse =>
    if networkResponse.isOk then
      (networkResponse, cachePut cache request networkResponse)
    else
      (networkResponse, cache)
  | .error _ =>
    match cacheMatch cache request with
    | some cachedResponse => (cachedResponse, cache)
    | none => ({ status := 503, body := "Network error" }, cache)

/-- `cacheFirstStrategy`: on a cache hit return the cached response and
issue a background `fetch` whose ok result refreshes the cache (a
rejected background fetch is not awaited and changes nothing); on a miss
fetch in the foreground, cache the response when it is ok, and turn a
network failure into a synthetic 503.  The third component records
whether a background refresh was issued. -/
def cacheFirstStrategy (net : Except String Response) (cache : Cache)
    (request : String) : Response × Cache × Bool :=
  match cacheMatch cache request with
  | some cachedResponse =>
    let cacheAfter :=
      match net with
      | .ok r => if r.isOk then cachePut cache request r else cache
      | .error _ => cache
    (cachedResponse, cacheAfter, true)
  | none =>
    match net with
    | .ok networkResponse =>
      if networkResponse.isOk then
        (networkResponse, cachePut cache request networkResponse, false)
      else
        (networkResponse, cache, false)
    | .error _ => ({ status := 503, body := "Offline" }, cache, false)

/-- The three caching policies dispatched by the fetch listener. -/
inductive Strategy where
  | networkFirst
  | cacheFirst
  | staleWhileRevalidate
deriving DecidableEq, Repr

/-- `String.includes` of JavaScript: `pat` occurs somewhere in `s` iff
splitting on it yields more than one piece. -/
def stringIncludes (s pat : String) : Bool :=
  (s.splitOn pat).length != 1

/-- The parts of a fetch-event request the listener inspects. -/
structure FetchRequest where
  method : String
  origin : String
  pathname : String
deriving DecidableEq, Repr

/-- The `fetch` listener: non-GET and cross-origin requests are skipped
(`respondWith` is never called, modelled as `none`); otherwise the
pathname selects one of the three strategies. -/
def fetchHandler (selfOrigin : String) (request : FetchRequest) : Option Strategy :=
  if request.method != "GET" || request.origin != selfOrigin then
    none
  else if stringIncludes request.pathname "/api/" then
    some .networkFirst
  else if stringIncludes request.pathname "/static/" then
    some .cacheFirst
  else
    some .staleWhileRevalidate

/-! ### Outbox (IndexedDB syncQueue) and sync driver (sw.js lines 169-293,
service-worker-patterns.md storeOperationForSync) -/

/-- A `syncQueue` entry: key `id = Date.now() + Math.random()`,
`timestamp = Date.now()`, the operation kind and its payload. -/
structure SyncOp where
  id : ℚ
  timestamp : Nat
  opType : String
  data : String
deriving DecidableEq, Repr

/-- The TaskManagerDB as the worker sees it: which object stores exist,
and the `syncQueue` store's records in ascending key (`id`) order. -/
structure Database where
  objectStoreNames : List String
  syncQueue : List SyncOp
deriving DecidableEq, Repr

/-- `getPendingOperations`: if the `syncQueue` store is missing, resolve
with the empty array before any transaction is opened; otherwise
`getAll` resolves with the store's records in key order. -/
def getPendingOperations (db : Database) : Except String (List SyncOp) :=
  if db.objectStoreNames.contains "syncQueue" then
    .ok db.syncQueue
  else
    .ok []

/-- `markOperationComplete`: skipped when the store is missing;
otherwise `store.delete(operationId)`, which succeeds whether or not the
key is present and removes the matching record.  Every branch resolves. -/
def markOperationComplete (db : Database) (operationId : ℚ) : Database :=
  if db.objectStoreNames.contains "syncQueue" then
    { db with syncQueue := db.syncQueue.filter (fun e => e.id != operationId) }
  else
    db

/-- Insertion into an object store keeps records in ascending key order. -/
def insertSorted (op : SyncOp) : List SyncOp → List SyncOp
  | [] => [op]
  | e :: rest => if op.id < e.id then op :: e :: rest else e :: insertSorted op rest

/-- `storeOperationForSync` (service-worker-patterns.md): build the
entry with `id = Date.now() + Math.random()` and
`timestamp = Date.now()` and `store.add` it.  The transaction throws if
the store is missing, and `add` rejects on a duplicate key. -/
def storeOperationForSync (now : Nat) (rand : ℚ) (opType opData : String)
    (db : Database) : Except String Database :=
  if db.objectStoreNames.contains "syncQueue" then
    let syncOperation : SyncOp :=
      { id := (now : ℚ) + rand, timestamp := now, opType := opType, data := opData }
    if db.syncQueue.any (fun e => e.id == syncOperation.id) then
      .error "ConstraintError"
    else
      .ok { db with syncQueue := insertSorted syncOperation db.syncQueue }
  else
    .error "NotFoundError"

/-- Run `storeOperationForSync` once per call of a sequence of
`(Date.now, Math.random, type, data)` observations. -/
def enqueueAll (db : Database) : List (Nat × ℚ × String × String) → Except String Database
  | [] => .ok db
  | (t, r, ty, d) :: rest =>
    match storeOperationForSync t r ty d db with
    | .ok db2 => enqueueAll db2 rest
    | .error e => .error e

/-- Whether an `executeOperation` outcome resolved. -/
def execOk : Except String Unit → Bool
  | .ok _ => true
  | .error _ => false

/-- The drain loop of `syncPendingOperations`: each operation is
executed; on success it is deleted from the queue, on failure the error
is logged and the loop moves on. -/
def processOperations (exec : SyncOp → Except String Unit) :
    Database → List SyncOp → Database
  | db, [] => db
  | db, op :: rest =>
    match exec op with
    | .ok _ => processOperations exec (markOperationComplete db op.id) rest
    | .error _ => processOperations exec db rest

/-- A message posted to a client. -/
structure SWMessage where
  msgType : String
  count : Nat
deriving DecidableEq, Repr

/-- `syncPendingOperations`: read the pending operations, drain them one
by one, then post `SYNC_COMPLETE` with `count = operations.length` to
every client.  `exec` is the outcome of `executeOperation` for each
operation and `numClients` the number of listening clients.  The outer
catch turns a failed read into no work and no message. -/
def syncPendingOperations (exec : SyncOp → Except String Unit) (numClients : Nat)
    (db : Database) : Database × List SWMessage :=
  match getPendingOperations db with
  | .error _ => (db, [])
  | .ok operations =>
    (processOperations exec db operations,
     List.replicate numClients { msgType := "SYNC_COMPLETE", count := operations.length })

/-! ### Helper lemmas about the drain loop -/

theorem markOperationComplete_objectStoreNames (db : Database) (operationId : ℚ) :
    (markOperationComplete db operationId).objectStoreNames = db.objectStoreNames := by
  by_cases h : "syncQueue" ∈ db.objectStoreNames <;> simp [markOperationComplete, h]

theorem markOperationComplete_syncQueue_of_mem (db : Database) (operationId : ℚ)
    (h : "syncQueue" ∈ db.objectStoreNames) :
    (markOperationComplete db operationId).syncQueue
      = db.syncQueue.filter (fun e => e.id != operationId) := by
  simp [markOperationComplete, h]

/-- One pass of the drain loop deletes from the queue exactly the
entries whose id matches some operation of the snapshot that executed
successfully. -/
theorem processOperations_syncQueue (exec : SyncOp → Except String Unit)
    (ops : List SyncOp) (db : Database) (h : "syncQueue" ∈ db.objectStoreNames) :
    (processOperations exec db ops).syncQueue
      = db.syncQueue.filter
          (fun e => !(ops.any (fun op => execOk (exec op) && op.id == e.id))) := by
  induction ops generalizing db with
  | nil => simp [processOperations]
  | cons op rest ih =>
    cases hexec : exec op with
    | ok u =>
      have hmem : "syncQueue" ∈ (markOperationComplete db op.id).objectStoreNames := by
        rw [markOperationComplete_objectStoreNames]
        exact h
      rw [processOperations, hexec]
      rw [ih (markOperationComplete db op.id) hmem,
        markOperationComplete_syncQueue_of_mem db op.id h, List.filter_filter]
      apply List.filter_congr
      intro e he
      by_cases hid : e.id = op.id
      · simp [hid, hexec, execOk]
      · have hid' : ¬ op.id = e.id := fun hh => hid hh.symm
        have h1 : (op.id == e.id) = false := beq_eq_false_iff_ne.mpr hid'
        have h2 : (e.id != op.id) = true := bne_iff_ne.mpr hid
        simp [h1, h2]
    | error msg =>
      rw [processOperations, hexec]
      rw [ih db h]
      apply List.filter_congr
      intro e he
      simp [hexec, execOk]

/-- In a queue whose ids are pairwise distinct (they are the store's
keys), an entry is matched by a successful operation of the snapshot iff
its own execution succeeded. -/
theorem any_execOk_of_nodup (exec : SyncOp → Except String Unit) (q : List SyncOp)
    (hnd : (q.map SyncOp.id).Nodup) (e : SyncOp) (he : e ∈ q) :
    q.any (fun op => execOk (exec op) && op.id == e.id) = execOk (exec e) := by
  cases hexec : execOk (exec e) with
  | true =>
    rw [List.any_eq_true]
    exact ⟨e, he, by simp [hexec]⟩
  | false =>
    rw [List.any_eq_false]
    intro op hop
    by_cases hid : op.id = e.id
    · have hop_eq : op = e := List.inj_on_of_nodup_map hnd hop he hid
      subst hop_eq
      simp [hexec]
    · simp [hid]

/-! ### C1 — completion precedence vs last-write-wins -/

/-- C1 counterexample: at the spec's own scenario (local
`pending`/`modifiedAt 100`, remote `completed`/`modifiedAt 90`) the
resolver returns the local record, so the merged status is `pending`,
not `completed`: the last-write-wins branch runs before any status
merge. -/
theorem resolveTaskConflict_completion_not_preserved :
    (resolveTaskConflict
      { status := "pending", priority := "medium", modifiedAt := 100, title := "t" }
      { status := "completed", priority := "medium", modifiedAt := 90, title := "t" }).status
      ≠ "completed" := by
  decide

/-- C1 amended: completion precedence holds only in the merge branch,
i.e. when the local side is not strictly newer; when
`localTask.modifiedAt > remoteTask.modifiedAt` the local record is
returned wholesale and a remote completion is discarded. -/
theorem resolveTaskConflict_completion_cases (localTask remoteTask : Task) :
    (localTask.modifiedAt ≤ remoteTask.modifiedAt →
      (localTask.status = "completed" ∨ remoteTask.status = "completed") →
      (resolveTaskConflict localTask remoteTask).status = "completed")
    ∧ (remoteTask.modifiedAt < localTask.modifiedAt →
      resolveTaskConflict localTask remoteTask = localTask) := by
  constructor
  · intro hle hc
    have hnot : ¬ localTask.modifiedAt > remoteTask.modifiedAt := not_lt.mpr hle
    unfold resolveTaskConflict
    rw [if_neg hnot]
    rcases hc with h | h <;> simp [resolveStatusConflict, h]
  · intro hlt
    unfold resolveTaskConflict
    rw [if_pos hlt]

/-- C1 amended, witnessed at concrete records on both sides of the
timestamp comparison. -/
theorem resolveTaskConflict_completion_cases_witness :
    (resolveTaskConflict
      { status := "pending", priority := "low", modifiedAt := 90, title := "a" }
      { status := "completed", priority := "low", modifiedAt := 100, title := "b" }).status
      = "completed"
    ∧ resolveTaskConflict
      { status := "pending", priority := "low", modifiedAt := 100, title := "a" }
      { status := "completed", priority := "low", modifiedAt := 90, title := "b" }
      = { status := "pending", priority := "low", modifiedAt := 100, title := "a" } :=
  ⟨(resolveTaskConflict_completion_cases _ _).1 (by decide) (Or.inr rfl),
   (resolveTaskConflict_completion_cases _ _).2 (by decide)⟩

/-! ### C2 — notification click actions -/

/-- C2: on a genuine `NotificationEvent` (which has no own `data`
property) carrying a task id in `notification.data`, both the
`complete` and the `view` actions throw a `TypeError` instead of
completing the task or opening the deep link: the listener destructures
`data` from the event object, where it is `undefined`, and then reads
`data.taskId`. -/
theorem notificationClickHandler_throws_on_real_event :
    notificationClickHandler
      { action := "complete", notification := pushShowNotification { taskId := "t1" },
        data := none }
      = .error "TypeError: undefined has no property taskId"
    ∧ notificationClickHandler
      { action := "view", notification := pushShowNotification { taskId := "t1" },
        data := none }
      = .error "TypeError: undefined has no property taskId" :=
  ⟨rfl, rfl⟩

/-! ### C4 — drain read tolerates a missing object store -/

/-- C4: when the `syncQueue` object store does not exist,
`getPendingOperations` resolves with the empty list (and in particular
does not reject): the guard short-circuits before any transaction is
opened. -/
theorem getPendingOperations_missing_store (db : Database)
    (h : db.objectStoreNames.contains "syncQueue" = false) :
    getPendingOperations db = .ok [] := by
  unfold getPendingOperations
  rw [h]
  simp

/-- C4 witnessed on a first-run database with no object stores at all. -/
theorem getPendingOperations_missing_store_witness :
    getPendingOperations { objectStoreNames := [], syncQueue := [] } = .ok [] :=
  getPendingOperations_missing_store _ (by decide)

/-! ### C10 — non-GET and cross-origin requests pass through -/

/-- C10: for a request that is not a GET or whose origin differs from
the worker's own origin, the fetch listener selects no caching strategy
at all (`respondWith` is never called), so the request falls through to
default network handling and no strategy can touch the cache. -/
theorem fetchHandler_skips_nonGet_and_crossOrigin (selfOrigin : String)
    (request : FetchRequest)
    (h : request.method ≠ "GET" ∨ request.origin ≠ selfOrigin) :
    fetchHandler selfOrigin request = none := by
  unfold fetchHandler
  rcases h with h | h <;> simp [h]

/-- C10 witnessed on a POST request and on a cross-origin GET. -/
theorem fetchHandler_skips_witness :
    fetchHandler "https://app.example"
      { method := "POST", origin := "https://app.example", pathname := "/api/tasks" } = none
    ∧ fetchHandler "https://app.example"
      { method := "GET", origin := "https://cdn.example", pathname := "/static/app.css" } = none :=
  ⟨fetchHandler_skips_nonGet_and_crossOrigin _ _ (Or.inl (by decide)),
   fetchHandler_skips_nonGet_and_crossOrigin _ _ (Or.inr (by decide))⟩

/-! ### C5 — Outbox completion is idempotent -/

/-- C5: deleting an operation id from the syncQueue twice leaves the
same state as deleting it once, and deleting an id that is not in the
queue changes nothing; every branch of `markOperationComplete`
resolves, so neither call raises. -/
theorem markOperationComplete_idempotent (db : Database) (operationId : ℚ) :
    markOperationComplete (markOperationComplete db operationId) operationId
      = markOperationComplete db operationId
    ∧ ((∀ op ∈ db.syncQueue, op.id ≠ operationId) →
      markOperationComplete db operationId = db) := by
  constructor
  · by_cases h : "syncQueue" ∈ db.objectStoreNames
    · simp [markOperationComplete, h, List.filter_filter]
    · simp [markOperationComplete, h]
  · intro hall
    by_cases h : "syncQueue" ∈ db.objectStoreNames
    · have hself : db.syncQueue.filter (fun e => e.id != operationId) = db.syncQueue := by
        rw [List.filter_eq_self]
        intro a ha
        simpa using hall a ha
      simp [markOperationComplete, h, hself]
    · simp [markOperationComplete, h]

/-- C5 witnessed: removing an id that was never enqueued is a no-op and
doing it twice equals doing it once. -/
theorem markOperationComplete_idempotent_witness :
    markOperationComplete
      (markOperationComplete
        { objectStoreNames := ["syncQueue"],
          syncQueue := [{ id := 1, timestamp := 10, opType := "CREATE_TASK", data := "a" }] } 5) 5
      = markOperationComplete
        { objectStoreNames := ["syncQueue"],
          syncQueue := [{ id := 1, timestamp := 10, opType := "CREATE_TASK", data := "a" }] } 5
    ∧ markOperationComplete
      { objectStoreNames := ["syncQueue"],
        syncQueue := [{ id := 1, timestamp := 10, opType := "CREATE_TASK", data := "a" }] } 5
      = { objectStoreNames := ["syncQueue"],
          syncQueue := [{ id := 1, timestamp := 10, opType := "CREATE_TASK", data := "a" }] } :=
  ⟨(markOperationComplete_idempotent _ 5).1,
   (markOperationComplete_idempotent _ 5).2 (by decide)⟩

/-! ### C6 — network-first strategy -/

/-- C6 counterexample: a network fetch that succeeds with a non-2xx
response (here a 500) is returned to the page, but the cache is not
overwritten with it — the code writes the cache only when
`response.ok`, so "if the network fetch succeeds, the cache entry is
overwritten with the response" fails at this input. -/
theorem networkFirstStrategy_nonOk_not_cached :
    (networkFirstStrategy (.ok { status := 500, body := "e" }) [] "/api/tasks").1
      = { status := 500, body := "e" }
    ∧ (networkFirstStrategy (.ok { status := 500, body := "e" }) [] "/api/tasks").2 = []
    ∧ cacheMatch (networkFirstStrategy (.ok { status := 500, body := "e" }) [] "/api/tasks").2
        "/api/tasks" ≠ some { status := 500, body := "e" } := by
  exact ⟨rfl, rfl, by decide⟩

/-- C6 amended: the network is attempted first and, on any resolved
response, that response is returned without consulting the cache; the
cache entry is overwritten exactly when the response is ok, and a
resolved non-ok response leaves the cache unchanged; on a network
failure the cached response is returned when present, and a synthetic
503 when not. -/
theorem networkFirstStrategy_spec (net : Except String Response) (cache : Cache)
    (request : String) :
    (∀ r, net = .ok r →
      (networkFirstStrategy net cache request).1 = r
      ∧ (r.isOk = true →
        (networkFirstStrategy net cache request).2 = cachePut cache request r)
      ∧ (r.isOk = false →
        (networkFirstStrategy net cache request).2 = cache))
    ∧ (∀ e, net = .error e →
      (∀ c, cacheMatch cache request = some c →
        networkFirstStrategy net cache request = (c, cache))
      ∧ (cacheMatch cache request = none →
        networkFirstStrategy net cache request
          = ({ status := 503, body := "Network error" }, cache))) := by
  constructor
  · intro r hr
    subst hr
    by_cases hok : r.isOk <;> simp [networkFirstStrategy, hok]
  · intro e he
    subst he
    constructor
    · intro c hc
      simp [networkFirstStrategy, hc]
    · intro hn
      simp [networkFirstStrategy, hn]

/-- C6 amended, witnessed: an ok network response is returned and
cached, and on network failure a cached value is served. -/
theorem networkFirstStrategy_spec_witness :
    (networkFirstStrategy (.ok { status := 200, body := "x" }) [] "/api/t").1
      = { status := 200, body := "x" }
    ∧ (networkFirstStrategy (.ok { status := 200, body := "x" }) [] "/api/t").2
      = cachePut [] "/api/t" { status := 200, body := "x" }
    ∧ networkFirstStrategy (.error "down")
        [("/api/t", { status := 200, body := "y" })] "/api/t"
      = ({ status := 200, body := "y" }, [("/api/t", { status := 200, body := "y" })]) :=
  ⟨((networkFirstStrategy_spec _ _ _).1 _ rfl).1,
   ((networkFirstStrategy_spec _ _ _).1 _ rfl).2.1 (by decide),
   ((networkFirstStrategy_spec _ _ _).2 _ rfl).1 { status := 200, body := "y" } (by decide)⟩

/-! ### C7 — cache-first strategy -/

/-- C7 counterexample: on a cache miss a network response that resolves
non-ok (here a 500) is returned to the caller, but the cache is not
populated with it — the code writes the cache only when `response.ok`,
so "the cache is populated with it before the response is returned"
fails at this input. -/
theorem cacheFirstStrategy_nonOk_not_cached :
    (cacheFirstStrategy (.ok { status := 500, body := "e" }) [] "/static/app.css").1
      = { status := 500, body := "e" }
    ∧ (cacheFirstStrategy (.ok { status := 500, body := "e" }) [] "/static/app.css").2.1
      = [] := by
  exact ⟨rfl, rfl⟩

/-- C7 amended: on a cache hit the cached response is returned whatever
the network does, and a background refresh is always issued, updating
the cache exactly when the background response is ok; on a miss the
network response is returned, populating the cache only when it is ok,
and a network failure becomes a synthetic 503 without touching the
cache. -/
theorem cacheFirstStrategy_spec (net : Except String Response) (cache : Cache)
    (request : String) :
    (∀ c, cacheMatch cache request = some c →
      (cacheFirstStrategy net cache request).1 = c
      ∧ (cacheFirstStrategy net cache request).2.2 = true
      ∧ (∀ r, net = .ok r → r.isOk = true →
        (cacheFirstStrategy net cache request).2.1 = cachePut cache request r)
      ∧ (∀ e, net = .error e → (cacheFirstStrategy net cache request).2.1 = cache))
    ∧ (cacheMatch cache request = none →
      (∀ r, net = .ok r →
        (cacheFirstStrategy net cache request).1 = r
        ∧ (r.isOk = true →
          (cacheFirstStrategy net cache request).2.1 = cachePut cache request r)
        ∧ (r.isOk = false → (cacheFirstStrategy net cache request).2.1 = cache))
      ∧ (∀ e, net = .error e →
        cacheFirstStrategy net cache request
          = ({ status := 503, body := "Offline" }, cache, false))) := by
  constructor
  · intro c hc
    refine ⟨by simp [cacheFirstStrategy, hc], by simp [cacheFirstStrategy, hc], ?_, ?_⟩
    · intro r hr hok
      subst hr
      simp [cacheFirstStrategy, hc, hok]
    · intro e he
      subst he
      simp [cacheFirstStrategy, hc]
  · intro hn
    constructor
    · intro r hr
      subst hr
      by_cases hok : r.isOk <;> simp [cacheFirstStrategy, hn, hok]
    · intro e he
      subst he
      simp [cacheFirstStrategy, hn]

/-- C7 amended, witnessed: with a value cached and the network failing
the cached value is returned and a background refresh was issued, and
on a miss an ok network response is returned after populating the
cache. -/
theorem cacheFirstStrategy_spec_witness :
    (cacheFirstStrategy (.error "down")
      [("/static/a.css", { status := 200, body := "y" })] "/static/a.css").1
      = { status := 200, body := "y" }
    ∧ (cacheFirstStrategy (.error "down")
      [("/static/a.css", { status := 200, body := "y" })] "/static/a.css").2.2 = true
    ∧ (cacheFirstStrategy (.ok { status := 200, body := "z" }) [] "/static/a.css").1
      = { status := 200, body := "z" }
    ∧ (cacheFirstStrategy (.ok { status := 200, body := "z" }) [] "/static/a.css").2.1
      = cachePut [] "/static/a.css" { status := 200, body := "z" } :=
  ⟨((cacheFirstStrategy_spec _ _ _).1 { status := 200, body := "y" } (by decide)).1,
   ((cacheFirstStrategy_spec _ _ _).1 { status := 200, body := "y" } (by decide)).2.1,
   (((cacheFirstStrategy_spec _ _ _).2 (by decide)).1 _ rfl).1,
   (((cacheFirstStrategy_spec _ _ _).2 (by decide)).1 _ rfl).2.1 (by decide)⟩

/-! ### C3 — partial progress of the drain -/

/-- C3: a drain pass leaves in the syncQueue exactly the operations
whose execution failed: a failed operation is not deleted
(`markOperationComplete` never runs for it), every operation of the
snapshot is still executed after a failure (the filter applies `exec`
to each one), only successful ones are removed, and the pass is a total
function — it never throws. -/
theorem syncPendingOperations_partial_progress (exec : SyncOp → Except String Unit)
    (numClients : Nat) (db : Database)
    (hstore : "syncQueue" ∈ db.objectStoreNames)
    (hids : (db.syncQueue.map SyncOp.id).Nodup) :
    ((syncPendingOperations exec numClients db).1).syncQueue
      = db.syncQueue.filter (fun e => !execOk (exec e)) := by
  have hget : getPendingOperations db = .ok db.syncQueue := by
    simp [getPendingOperations, hstore]
  unfold syncPendingOperations
  rw [hget]
  rw [processOperations_syncQueue exec db.syncQueue db hstore]
  apply List.filter_congr
  intro e he
  rw [any_execOk_of_nodup exec db.syncQueue hids e he]

/-- C3 witnessed: with the first of two queued operations failing, the
drain still executes and removes the second, keeps the first, and
completes. -/
theorem syncPendingOperations_partial_progress_witness :
    ((syncPendingOperations
      (fun op => if op.opType == "UPDATE_TASK" then .error "network" else .ok ())
      1
      { objectStoreNames := ["syncQueue"],
        syncQueue := [{ id := 1, timestamp := 10, opType := "UPDATE_TASK", data := "a" },
                      { id := 2, timestamp := 11, opType := "CREATE_TASK", data := "b" }] }).1).syncQueue
      = [{ id := 1, timestamp := 10, opType := "UPDATE_TASK", data := "a" }] := by
  rw [syncPendingOperations_partial_progress _ 1 _ (by decide) (by decide)]
  decide

/-! ### C9 — completion report -/

/-- C9: after a drain pass over an existing syncQueue store, the worker
posts `SYNC_COMPLETE` with `count = operations.length` to every one of
the `numClients` listening contexts; and when every queued operation
executes successfully the drained queue is empty. -/
theorem syncPendingOperations_reports_count (exec : SyncOp → Except String Unit)
    (numClients : Nat) (db : Database)
    (hstore : "syncQueue" ∈ db.objectStoreNames) :
    (syncPendingOperations exec numClients db).2
      = List.replicate numClients
          { msgType := "SYNC_COMPLETE", count := db.syncQueue.length }
    ∧ ((∀ op ∈ db.syncQueue, execOk (exec op) = true) →
      ((syncPendingOperations exec numClients db).1).syncQueue = []) := by
  have hget : getPendingOperations db = .ok db.syncQueue := by
    simp [getPendingOperations, hstore]
  constructor
  · unfold syncPendingOperations
    rw [hget]
  · intro hall
    unfold syncPendingOperations
    rw [hget]
    rw [processOperations_syncQueue exec db.syncQueue db hstore]
    rw [List.filter_eq_nil_iff]
    intro e he
    have hany : db.syncQueue.any (fun op => execOk (exec op) && op.id == e.id) = true := by
      rw [List.any_eq_true]
      exact ⟨e, he, by simp [hall e he]⟩
    simp [hany]

/-- C9 witnessed on the offline scenario: one queued create operation,
one listening context, a successful drain: the Outbox ends empty and
`SYNC_COMPLETE` reports count 1. -/
theorem syncPendingOperations_reports_count_witness :
    (syncPendingOperations (fun _ => .ok ()) 1
      { objectStoreNames := ["syncQueue"],
        syncQueue := [{ id := 1, timestamp := 10, opType := "CREATE_TASK", data := "milk" }] }).2
      = [{ msgType := "SYNC_COMPLETE", count := 1 }]
    ∧ ((syncPendingOperations (fun _ => .ok ()) 1
      { objectStoreNames := ["syncQueue"],
        syncQueue := [{ id := 1, timestamp := 10, opType := "CREATE_TASK", data := "milk" }] }).1).syncQueue
      = [] := by
  have h := syncPendingOperations_reports_count (fun _ => .ok ()) 1
    { objectStoreNames := ["syncQueue"],
      syncQueue := [{ id := 1, timestamp := 10, opType := "CREATE_TASK", data := "milk" }] }
    (by decide)
  exact ⟨by rw [h.1]; rfl, h.2 (fun op _ => rfl)⟩

/-! ### C8 — enqueue order vs key order -/

theorem insertSorted_eq_append (op : SyncOp) (l : List SyncOp)
    (h : ∀ e ∈ l, e.id < op.id) : insertSorted op l = l ++ [op] := by
  induction l with
  | nil => rfl
  | cons e rest ih =>
    rw [insertSorted, if_neg (lt_asymm (h e (List.mem_cons_self e rest))),
      ih (fun x hx => h x (List.mem_cons_of_mem e hx))]
    rfl

/-- Adding an entry whose key is above every existing key appends it at
the end of the store. -/
theorem storeOperationForSync_append (now : Nat) (rand : ℚ) (ty d : String)
    (db : Database) (hstore : "syncQueue" ∈ db.objectStoreNames)
    (hfresh : ∀ e ∈ db.syncQueue, e.id < (now : ℚ) + rand) :
    storeOperationForSync now rand ty d db
      = .ok { objectStoreNames := db.objectStoreNames,
              syncQueue := db.syncQueue ++
                [{ id := (now : ℚ) + rand, timestamp := now, opType := ty, data := d }] } := by
  have hany : db.syncQueue.any (fun e => e.id == (now : ℚ) + rand) = false := by
    rw [List.any_eq_false]
    intro e he
    simpa using (hfresh e he).ne
  have hins := insertSorted_eq_append
    { id := (now : ℚ) + rand, timestamp := now, opType := ty, data := d }
    db.syncQueue (fun e he => hfresh e he)
  simp [storeOperationForSync, hstore, hany, hins]

/-- The drain of an enqueue sequence, in general: starting from a store
whose keys all lie below the coming clock values, with clock
observations strictly increasing across calls and each random draw in
`[0,1)`, every call appends at the end, so the store ends in enqueue
order. -/
theorem enqueueAll_append (calls : List (Nat × ℚ × String × String)) :
    ∀ db : Database, "syncQueue" ∈ db.objectStoreNames →
    (∀ c ∈ calls, 0 ≤ c.2.1 ∧ c.2.1 < 1) →
    calls.Pairwise (fun a b => a.1 < b.1) →
    (∀ e ∈ db.syncQueue, ∀ c ∈ calls, e.id < (c.1 : ℚ)) →
    enqueueAll db calls
      = .ok { objectStoreNames := db.objectStoreNames,
              syncQueue := db.syncQueue ++ calls.map (fun c =>
                { id := (c.1 : ℚ) + c.2.1, timestamp := c.1,
                  opType := c.2.2.1, data := c.2.2.2 }) } := by
  induction calls with
  | nil =>
    intro db hstore _ _ _
    simp [enqueueAll]
  | cons c rest ih =>
    intro db hstore hrand htimes hinit
    obtain ⟨t, r, ty, d⟩ := c
    have hrand_head : (0:ℚ) ≤ r ∧ r < 1 := hrand (t, r, ty, d) (List.mem_cons_self _ _)
    have hhead : ∀ b ∈ rest, t < b.1 := (List.pairwise_cons.mp htimes).1
    have hfresh : ∀ e ∈ db.syncQueue, e.id < (t : ℚ) + r := by
      intro e he
      have h1 : e.id < (t : ℚ) := hinit e he (t, r, ty, d) (List.mem_cons_self _ _)
      have h2 : (0:ℚ) ≤ r := hrand_head.1
      linarith
    have hstep := storeOperationForSync_append t r ty d db hstore hfresh
    have hrest := ih
      { objectStoreNames := db.objectStoreNames,
        syncQueue := db.syncQueue ++
          [{ id := (t : ℚ) + r, timestamp := t, opType := ty, data := d }] }
      hstore
      (fun c' hc' => hrand c' (List.mem_cons_of_mem _ hc'))
      (List.pairwise_cons.mp htimes).2
      (by
        intro e he c' hc'
        rcases List.mem_append.mp he with h | h
        · exact hinit e h c' (List.mem_cons_of_mem _ hc')
        · have he' := List.mem_singleton.mp h
          subst he'
          have ht' : t < c'.1 := hhead c' hc'
          have hcast : ((t:ℚ) + 1) ≤ (c'.1 : ℚ) := by exact_mod_cast Nat.succ_le_of_lt ht'
          show (t:ℚ) + r < (c'.1 : ℚ)
          linarith [hrand_head.2])
    rw [enqueueAll, hstep]
    show enqueueAll
      { objectStoreNames := db.objectStoreNames,
        syncQueue := db.syncQueue ++
          [{ id := (t : ℚ) + r, timestamp := t, opType := ty, data := d }] } rest = _
    rw [hrest]
    simp [List.append_assoc]

/-- The first entry of the same-millisecond scenario: enqueued first,
`Date.now() = 1000`, `Math.random() = 1/2`. -/
def opHalf : SyncOp :=
  { id := ((1000 : ℕ) : ℚ) + 1/2, timestamp := 1000, opType := "CREATE_TASK", data := "a" }

/-- The second entry of the same-millisecond scenario: enqueued second,
`Date.now() = 1000` again, `Math.random() = 1/4`. -/
def opQuarter : SyncOp :=
  { id := ((1000 : ℕ) : ℚ) + 1/4, timestamp := 1000, opType := "CREATE_TASK", data := "b" }

/-- C8 counterexample: two operations enqueued one after the other
within the same millisecond (`Date.now()` returns 1000 twice) with
random draws 1/2 then 1/4 get the equal timestamp 1000 — not strictly
increasing — and keys 1000.5 and 1000.25, so the drain returns the
second-enqueued entry (`opQuarter`) first: reverse enqueue order. -/
theorem storeOperationForSync_same_millisecond_reorders :
    enqueueAll { objectStoreNames := ["syncQueue"], syncQueue := [] }
      [(1000, 1/2, "CREATE_TASK", "a"), (1000, 1/4, "CREATE_TASK", "b")]
      = .ok { objectStoreNames := ["syncQueue"], syncQueue := [opQuarter, opHalf] }
    ∧ getPendingOperations
        { objectStoreNames := ["syncQueue"], syncQueue := [opQuarter, opHalf] }
      = .ok [opQuarter, opHalf]
    ∧ opQuarter.timestamp = opHalf.timestamp := by
  have hne : (opHalf.id == ((1000 : ℕ) : ℚ) + 1/4) = false := by
    rw [beq_eq_false_iff_ne]
    show ((1000 : ℕ) : ℚ) + 1/2 ≠ ((1000 : ℕ) : ℚ) + 1/4
    norm_num
  have hlt : ((1000 : ℕ) : ℚ) + 1/4 < opHalf.id := by
    show ((1000 : ℕ) : ℚ) + 1/4 < ((1000 : ℕ) : ℚ) + 1/2
    norm_num
  have h1 : storeOperationForSync 1000 (1/2) "CREATE_TASK" "a"
      { objectStoreNames := ["syncQueue"], syncQueue := [] }
      = .ok { objectStoreNames := ["syncQueue"], syncQueue := [opHalf] } := rfl
  have h2 : storeOperationForSync 1000 (1/4) "CREATE_TASK" "b"
      { objectStoreNames := ["syncQueue"], syncQueue := [opHalf] }
      = .ok { objectStoreNames := ["syncQueue"], syncQueue := [opQuarter, opHalf] } := by
    simp [storeOperationForSync, insertSorted, opHalf, opQuarter, hne, hlt]
    norm_num
  refine ⟨?_, rfl, rfl⟩
  show (match storeOperationForSync 1000 (1/2) "CREATE_TASK" "a"
      { objectStoreNames := ["syncQueue"], syncQueue := [] } with
    | .ok db2 => enqueueAll db2 [(1000, 1/4, "CREATE_TASK", "b")]
    | .error e => .error e)
    = .ok { objectStoreNames := ["syncQueue"], syncQueue := [opQuarter, opHalf] }
  rw [h1]
  show (match storeOperationForSync 1000 (1/4) "CREATE_TASK" "b"
      { objectStoreNames := ["syncQueue"], syncQueue := [opHalf] } with
    | .ok db2 => enqueueAll db2 []
    | .error e => .error e)
    = .ok { objectStoreNames := ["syncQueue"], syncQueue := [opQuarter, opHalf] }
  rw [h2]
  rfl

/-- C8 amended: `enqueue` assigns `timestamp = Date.now()` (only
non-decreasing in general) and key `id = Date.now() + Math.random()`,
and the drain returns entries in ascending key order; whenever
successive enqueue calls observe strictly increasing millisecond clock
values, the keys strictly increase, so the drain returns all entries in
enqueue order and their timestamps are strictly increasing. -/
theorem enqueueAll_enqueue_order (calls : List (Nat × ℚ × String × String))
    (db : Database) (hstore : "syncQueue" ∈ db.objectStoreNames)
    (hrand : ∀ c ∈ calls, 0 ≤ c.2.1 ∧ c.2.1 < 1)
    (htimes : calls.Pairwise (fun a b => a.1 < b.1))
    (hinit : ∀ e ∈ db.syncQueue, ∀ c ∈ calls, e.id < (c.1 : ℚ)) :
    enqueueAll db calls
      = .ok { objectStoreNames := db.objectStoreNames,
              syncQueue := db.syncQueue ++ calls.map (fun c =>
                { id := (c.1 : ℚ) + c.2.1, timestamp := c.1,
                  opType := c.2.2.1, data := c.2.2.2 }) }
    ∧ (calls.map (fun c => c.1)).Pairwise (· < ·) :=
  ⟨enqueueAll_append calls db hstore hrand htimes hinit,
   List.pairwise_map.mpr htimes⟩

/-- C8 amended, witnessed: two enqueues at distinct milliseconds land in
enqueue order even though the second random draw is smaller. -/
theorem enqueueAll_enqueue_order_witness :
    enqueueAll { objectStoreNames := ["syncQueue"], syncQueue := [] }
      [(1000, 1/2, "CREATE_TASK", "a"), (1001, 1/4, "UPDATE_TASK", "b")]
      = .ok { objectStoreNames := ["syncQueue"],
              syncQueue :=
                [{ id := ((1000 : ℕ) : ℚ) + 1/2, timestamp := 1000,
                   opType := "CREATE_TASK", data := "a" },
                 { id := ((1001 : ℕ) : ℚ) + 1/4, timestamp := 1001,
                   opType := "UPDATE_TASK", data := "b" }] } := by
  have h := (enqueueAll_enqueue_order
    [(1000, 1/2, "CREATE_TASK", "a"), (1001, 1/4, "UPDATE_TASK", "b")]
    { objectStoreNames := ["syncQueue"], syncQueue := [] }
    (by decide)
    (by intro c hc; fin_cases hc <;> norm_num)
    (by decide) (by decide)).1
  rw [h]
  rfl

end Sky
